import Mathlib

/-
Shallow embedding of the botcbot rules engine (lib/logic/Vote.py, lib/logic/Day.py,
lib/logic/charcreation.py) in Lean 4.

Conventions used throughout:
- Players are identified by natural numbers; the Python code holds shared mutable
  Player objects, so per-player mutable fields (nominations_today,
  has_been_nominated, the effect list) live in the game state as functions
  from player id.
- The single current Day object and the Game object are merged into one
  GameState record: Day is created fresh each day and every claim here concerns
  a single day, so the Day fields (is_pms, is_noms, past_votes, current_vote,
  about_to_die, vote_end_messages) sit next to the Game fields.
- The Discord transport is embedded as message logs: safe_send allocates the id
  nextMsgId and appends it to sentMessages; the edit performed by
  Vote._update_old_vote_end_message (inserting " not") is recorded by appending
  the edited message id to editedNegated.  Pinning and unpinning, direct
  messages to storytellers, and the exact announcement text are transport-side
  and are not modelled; exile of a traveler (a character hook outside the core)
  is recorded in the exiled log.
- Vote.majority is a Python float whose value is always an integral multiple
  of one half: it is len(order)/2 or a non-ghost count divided by 2, maxed with
  the integer about_to_die[1] + 1.  We embed twice its value as the Int field
  majorityX2, which is exact and kernel-executable; the resolution test
  votes >= majority becomes 2 * votes >= majorityX2.
- Statuses queried through Player.is_status / Player.ghost / Player.functioning
  and the per-player permission checks (can_nominate, can_be_nominated) are
  computed from the character and effect tables in modules outside this
  repository snapshot; they enter the model as fixed Boolean tables on the
  game state, read exactly where the source reads them.
- Python object identity of Vote is embedded by the vid field; the source
  compares current_vote == self by identity, the model compares the records.
-/

/-- Python list.insert(i, a): insert a before index i, clamping at the end. -/
def pyInsert (i : Nat) (a : Nat) (l : List Nat) : List Nat :=
  l.take i ++ a :: l.drop i

/-- Python list.index(a): index of the first occurrence of a; total model,
returning the length when a is absent (the source only calls it on members,
except in Vote.prevote where the ValueError case is modelled explicitly). -/
def pyIndex (a : Nat) : List Nat → Nat
  | [] => 0
  | b :: t => if b = a then 0 else pyIndex a t + 1

/-- Iterate a function n times (used to model repeated cleanup calls). -/
def iterate (f : α → α) : Nat → α → α
  | 0, a => a
  | n + 1, a => iterate f n (f a)

/-- Vote (lib/logic/Vote.py, class Vote): the per-nomination voting state.
majorityX2 stores twice the float field majority (see header). -/
structure Vote where
  vid : Nat
  nominee : Nat
  nominator : Nat
  traveler : Bool
  storyteller : Bool
  announcements : List Nat
  prevotes : List (Nat × Nat)
  position : Nat
  votes : Int
  voted : List Nat
  order : List Nat
  majorityX2 : Int
  deriving DecidableEq, Repr

/-- Game plus current Day state (lib/logic/Day.py class Day, plus the Game
fields and per-player mutable fields the embedded operations read and write). -/
structure GameState where
  seatingOrder : List Nat
  storytellers : List Nat
  traveler : Nat → Bool
  storyteller : Nat → Bool
  ghost : Nat → Bool
  canVoteTwice : Nat → Bool
  canNominate : Nat → Bool
  canBeNominated : Nat → Nat → Bool
  nominationsToday : Nat → Int
  hasBeenNominated : Nat → Bool
  effects : Nat → List (Nat × Bool)
  isPms : Bool
  isNoms : Bool
  pastVotes : List Vote
  currentVote : Option Vote
  aboutToDie : Option (Nat × Int × Nat)
  voteEndMessages : List Nat
  exiled : List Nat
  nextMsgId : Nat
  sentMessages : List Nat
  editedNegated : List Nat

/-- Vote.__init__ lines 70 to 79: the voting order before duplicate insertion.
For a storyteller nominee it is the seating order; otherwise the seating order
rotated so the nominee votes last. -/
def voteOrder (g : GameState) (storyteller : Bool) (nominee : Nat) : List Nat :=
  if storyteller then g.seatingOrder
  else
    g.seatingOrder.drop (pyIndex nominee g.seatingOrder + 1) ++
      g.seatingOrder.take (pyIndex nominee g.seatingOrder + 1)

/-- Vote.__init__ lines 81 to 98: twice the majority threshold.  The source
computes float(len(order)/2) for traveler votes, float(nonghost/2) otherwise,
then maxes with float(about_to_die[1] + 1) when the day has an about_to_die
entry; doubling removes the halves. -/
def voteMajorityX2 (g : GameState) (traveler : Bool) (order : List Nat) : Int :=
  if traveler then (order.length : Int)
  else
    let base : Int := ((order.filter (fun p => !g.ghost p)).length : Int)
    match g.aboutToDie with
    | some atd => max base (2 * (atd.2.1 + 1))
    | none => base

/-- Vote.__init__ lines 100 to 103: the can_vote_twice duplication loop.  The
source iterates by index over the very list it mutates
(for player in self.order: if vt: self.order.insert(self.order.index(player), player)),
so the model steps an explicit index i and bounds the number of iterations by
fuel, returning none when fuel runs out before the index reaches the end. -/
def voteTwiceLoop (vt : Nat → Bool) : Nat → List Nat → Nat → Option (List Nat)
  | fuel, order, i =>
    match order[i]? with
    | none => some order
    | some p =>
      match fuel with
      | 0 => none
      | fuel' + 1 =>
        voteTwiceLoop vt fuel'
          (if vt p then pyInsert (pyIndex p order) p order else order) (i + 1)

/-- Vote.__init__ (lib/logic/Vote.py lines 56 to 103), staged as in the source:
fields, order before duplication, majority (computed on that order), then the
duplication loop; none when the loop exceeds the fuel bound. -/
def Vote.init (g : GameState) (vid nominee nominator : Nat) (fuel : Nat) :
    Option Vote :=
  match voteTwiceLoop g.canVoteTwice fuel
      (voteOrder g (g.storyteller nominee) nominee) 0 with
  | none => none
  | some finalOrder =>
    some { vid := vid, nominee := nominee, nominator := nominator,
           traveler := g.traveler nominee, storyteller := g.storyteller nominee,
           announcements := [], prevotes := [], position := 0, votes := 0,
           voted := [], order := finalOrder,
           majorityX2 := voteMajorityX2 g (g.traveler nominee)
             (voteOrder g (g.storyteller nominee) nominee) }

/-- safe_send to the public channel: allocate the next message id and log it. -/
def sendMsg (st : GameState) : GameState × Nat :=
  ({ st with nextMsgId := st.nextMsgId + 1,
             sentMessages := st.sentMessages ++ [st.nextMsgId] }, st.nextMsgId)

/-- Vote result as computed in _generate_vote_end_message line 266:
votes >= majority, doubled here (see header). -/
def Vote.result (v : Vote) : Bool := decide (2 * v.votes ≥ v.majorityX2)

/-- Vote._update_old_vote_end_message (lib/logic/Vote.py lines 244 to 255):
when the day has an about_to_die entry and (result or this tally equals the
entry tally), edit that announcement to negate it; inside that same branch,
when result is false, clear about_to_die. -/
def Vote.updateOldVoteEndMessage (st : GameState) (v : Vote) (result : Bool) :
    GameState :=
  match st.aboutToDie with
  | some atd =>
    if result || decide (v.votes = atd.2.1) then
      let st1 := { st with editedNegated := st.editedNegated ++ [atd.2.2] }
      if !result then { st1 with aboutToDie := none } else st1
    else st
  | none => st

/-- Vote.end (lib/logic/Vote.py lines 204 to 242), named endVote because end is
a Lean keyword.  Guarded on being the live vote; archives the vote, announces
the result (result computed as in _generate_vote_end_message line 266,
votes >= majority, doubled here), exiles a traveler nominee on success, reopens
PMs and nominations, and for non-traveler votes updates the old end message and
installs the new about_to_die on success.  The unpin loop over announcements
only touches transport-side pin state and is not modelled. -/
def Vote.endVote (st : GameState) (v : Vote) : GameState :=
  if st.currentVote = some v then
    let st1 := { st with pastVotes := st.pastVotes ++ [v], currentVote := none }
    let result : Bool := v.result
    let sent := sendMsg st1
    let endMsgId := sent.2
    let st2 := { sent.1 with voteEndMessages := sent.1.voteEndMessages ++ [endMsgId] }
    let st3 := if v.traveler && result
      then { st2 with exiled := st2.exiled ++ [v.nominee] } else st2
    let st4 := { st3 with isPms := true }
    let st5 := { st4 with isNoms := true }
    if !v.traveler then
      let st6 := Vote.updateOldVoteEndMessage st5 v result
      if result then { st6 with aboutToDie := some (v.nominee, v.votes, endMsgId) }
      else st6
    else st5
  else st

/-- Vote.cancel (lib/logic/Vote.py lines 285 to 310).  Guarded on being the
live vote; clears current_vote, announces, reopens PMs and nominations, refunds
the nomination when (not traveler or storyteller) where both flags describe the
nominee, and clears the nominee has_been_nominated flag.  The unpin loop is
transport-side and not modelled. -/
def Vote.cancel (st : GameState) (v : Vote) : GameState :=
  if st.currentVote = some v then
    let st1 := { st with currentVote := none }
    let st2 := (sendMsg st1).1
    let st3 := { st2 with isPms := true }
    let st4 := { st3 with isNoms := true }
    let st5 := if !v.traveler || v.storyteller then
        { st4 with nominationsToday := fun q =>
            if q = v.nominator then st4.nominationsToday q - 1
            else st4.nominationsToday q }
      else st4
    { st5 with hasBeenNominated := fun q =>
        if q = v.nominee then false else st5.hasBeenNominated q }
  else st

/-- Outcome of Vote.prevote (lib/logic/Vote.py lines 185 to 202).  The source
is interactive when the voter is the currently called voter; that branch is
modelled as the confirmPrompt outcome.  indexError marks the IndexError raised
by the to_vote property when position is past the end; valueError marks the
uncaught ValueError raised by self.order.index(voter) for a voter absent from
the order. -/
inductive PrevoteOutcome where
  | indexError
  | confirmPrompt
  | valueError
  | alreadyVoted
  | stored (v : Vote)
  deriving DecidableEq, Repr

/-- Python dict assignment self.prevotes[voter] = vt on an insertion-ordered
dict: overwrite in place when the key exists, append otherwise. -/
def setAssoc : List (Nat × Nat) → Nat → Nat → List (Nat × Nat)
  | [], k, v => [(k, v)]
  | (a, b) :: t, k, v =>
    if a = k then (a, v) :: t else (a, b) :: setAssoc t k v

/-- Vote.prevote (lib/logic/Vote.py lines 185 to 202): confirm interactively
when the voter is to_vote; otherwise look up self.order.index(voter), which
raises ValueError when the voter is not in the order; reject when that first
index is below position; otherwise store the prevote. -/
def Vote.prevote (v : Vote) (voter vt : Nat) : PrevoteOutcome :=
  match v.order[v.position]? with
  | none => .indexError
  | some tv =>
    if voter = tv then .confirmPrompt
    else if voter ∈ v.order then
      if pyIndex voter v.order < v.position then .alreadyVoted
      else .stored { v with prevotes := setAssoc v.prevotes voter vt }
    else .valueError

/-- Nomination validation failures (lib/exceptions AlreadyNomniatedError and
commands.BadArgument as raised in lib/logic/Day.py lines 194 to 213). -/
inductive NomError where
  | alreadyNominated
  | ineligibleNominee
  deriving DecidableEq, Repr

/-- Fold a list of nomination hooks exactly as Day.nominate lines 69 to 76:
proceed starts true and each hook runs unconditionally, its side effects
applied to the running state, with proceed updated as hook-result and proceed. -/
def runHooks (hooks : List (GameState → GameState × Bool)) (st : GameState) :
    GameState × Bool :=
  hooks.foldl (fun acc h => ((h acc.1).1, (h acc.1).2 && acc.2)) (st, true)

/-- The state after running every hook unconditionally in order. -/
def runHooksStates (hooks : List (GameState → GameState × Bool))
    (st : GameState) : GameState :=
  hooks.foldl (fun s h => (h s).1) st

/-- Whether every hook, run in order on the accumulated states, returned true. -/
def runHooksAll : List (GameState → GameState × Bool) → GameState → Bool
  | [], _ => true
  | h :: t, st => (h st).2 && runHooksAll t (h st).1

/-- Day.nominate lines 70 to 76 flattened: for each seated player in seating
order, the character nomination hook then the hooks of that player effect list
(the source snapshots each effect list; the model takes the tables as fixed
parameters, character dispatch being outside the core). -/
def nominationHookList (charHook : Nat → GameState → GameState × Bool)
    (effHooks : Nat → List (GameState → GameState × Bool)) (order : List Nat) :
    List (GameState → GameState × Bool) :=
  (order.map (fun p => charHook p :: effHooks p)).flatten

/-- Day.nominate lines 81 to 91: adjust the nominator and nominee after every
hook approved, on the state st1 left by the hook loop: consume the allowance
(Player.add_nomination, modelled from the spec as incrementing the
nominations-used counter) unless the nominee is a storyteller or traveler,
mark the nominee nominated, close PMs and close nominations. -/
def nominateAdjust (st1 : GameState) (nominee nominator : Nat) : GameState :=
  let st2 := if !(st1.storyteller nominee || st1.traveler nominee) then
      { st1 with nominationsToday := fun q =>
          if q = nominator then st1.nominationsToday q + 1
          else st1.nominationsToday q }
    else st1
  let st3 := { st2 with hasBeenNominated := fun q =>
      if q = nominee then true else st2.hasBeenNominated q }
  let st4 := { st3 with isPms := false }
  { st4 with isNoms := false }

/-- Day.nominate lines 94 to 109: install the constructed vote as the current
vote and append the pinned announcement id to its announcements. -/
def installVote (st5 : GameState) (v : Vote) : GameState :=
  let st6 := { st5 with currentVote := some v }
  let sent := sendMsg st6
  let vAnn := { v with announcements := v.announcements ++ [sent.2] }
  { sent.1 with currentVote := some vAnn }

/-- Day.nominate lines 81 to 115, the stage after every hook approved:
adjustment, then Vote construction (none when Vote.init exceeds its fuel),
then vote installation. -/
def nominateProceed (st1 : GameState) (nominee nominator vid fuel : Nat) :
    Option (Except NomError GameState) :=
  match Vote.init (nominateAdjust st1 nominee nominator)
      vid nominee nominator fuel with
  | none => none
  | some v =>
    some (.ok (installVote (nominateAdjust st1 nominee nominator) v))

/-- Day.nominate (lib/logic/Day.py lines 47 to 115).  The nominee string
resolution (_determine_nominee, an external player-lookup collaborator) is done
by the caller, so the nominee arrives resolved.  Stages follow the source:
nominator validation (_check_valid_nominator line 206), nominee validation
(_check_valid_nominee line 194), the hook loop, then on proceed the allowance
consumption (Player.add_nomination, modelled from the spec as incrementing the
nominations-used counter) unless the nominee is a storyteller or traveler,
has_been_nominated, closing PMs and nominations, constructing the Vote
(with fuel, see Vote.init) and the pinned announcement appended to the new
vote announcements.  The trailing message tally and call_next are the
suspension point awaiting voter input and are outside this model.  Returns
none when Vote.init exceeds its fuel. -/
def Day.nominate (charHook : Nat → GameState → GameState × Bool)
    (effHooks : Nat → List (GameState → GameState × Bool))
    (fuel : Nat) (st : GameState) (nominee nominator vid : Nat) :
    Option (Except NomError GameState) :=
  if !(st.canNominate nominator || st.traveler nominee ||
        st.storyteller nominator) then
    some (.error .alreadyNominated)
  else if !(if st.storyteller nominee
            then st.storytellers.all (fun s => st.canBeNominated s nominator)
            else st.canBeNominated nominee nominator) then
    some (.error .ineligibleNominee)
  else
    let hr := runHooks (nominationHookList charHook effHooks st.seatingOrder) st
    if !hr.2 then some (.ok hr.1)
    else nominateProceed hr.1 nominee nominator vid fuel

/-- Condition of the owning player as read by the functioning gate:
Player.functioning, Player.ghost, and the drunk and poisoned statuses are
computed outside this repository snapshot and enter as fixed booleans. -/
structure PlayerCond where
  functioning : Bool
  ghost : Bool
  drunk : Bool
  poisoned : Bool
  deriving DecidableEq, Repr

/-- Status string determination in if_functioning
(lib/logic/charcreation.py lines 82 to 89). -/
def gateStatus (c : PlayerCond) : String :=
  if c.ghost then "dead"
  else if c.drunk then "drunk"
  else if c.poisoned then "poisoned"
  else "not functioning"

/-- if_functioning (lib/logic/charcreation.py lines 72 to 115).  The wrapped
ability is a function of the enabled flag and the epithet string kwargs the
gate may override; a normal call-through passes the defaults true and the empty
string.  bugReport embeds safe_bug_report(ctx): the whole diagnostic block,
including the drunk-or-poisoned call-through, sits inside it in the source.
neutral embeds the call on the parentless Character placeholder used to obtain
the no-op result shape.  The second component logs the skip diagnostic, whose
full text (epithet and pronouns) comes from external preference data. -/
def if_functioning (runIfDrunkpoisoned : Bool) (c : PlayerCond)
    (bugReport : Bool) (func : Bool → String → α) (neutral : α) :
    α × List String :=
  if c.functioning then (func true "", [])
  else
    if bugReport then
      let status := gateStatus c
      if runIfDrunkpoisoned && (status == "drunk" || status == "poisoned") then
        (func false ("(" ++ status ++ ")"), [])
      else
        (neutral, ["Skipping, as " ++ status])
    else (neutral, [])

/-- Error raised by the targeting predicates
(lib/exceptions InvalidMorningTargetError). -/
inductive TargetErr where
  | invalidMorningTarget
  deriving DecidableEq, Repr

/-- _condition_wrapper (lib/logic/charcreation.py lines 268 to 276): the
wrapped predicate delegates on a truthy player and raises
InvalidMorningTargetError on a null player.  A predicate may itself raise, so
it returns Except. -/
def conditionWrapper (condition : Nat → GameState → Except TargetErr Bool) :
    Option Nat → GameState → Except TargetErr Bool
  | some p, g => condition p g
  | none, _ => .error .invalidMorningTarget

/-- add_targeted_effect (lib/logic/charcreation.py lines 279 to 307) after
target selection: target is the value select_target resolved (its interactive
retry loop and the none-synonym vocabulary are upstream).  A none target makes
target.add_effect raise AttributeError, modelled as none.  add_effect appends
the effect (source player, disabled flag) to the target effect list; the
disable call made when enabled is false (Effect.disable, outside this
snapshot, modelled from the spec as setting the disabled flag) is folded into
the stored flag.  isDeadEffect embeds issubclass(effect, Dead); the result
carries the affected-player list and the (always empty) message lines. -/
def addTargetedEffectAfter (st : GameState) (target : Option Nat)
    (sourcePlayer : Nat) (isDeadEffect : Bool) (enabled : Bool) :
    Option (GameState × List Nat × List String) :=
  match target with
  | none => none
  | some t =>
    let st1 := { st with effects := fun q =>
                  if q = t then st.effects q ++ [(sourcePlayer, !enabled)]
                  else st.effects q }
    if isDeadEffect then some (st1, [t], []) else some (st1, [], [])

/-- An effect as seen by the scheduled-deletion cleanups: the optional integer
day counter (the days attribute, absent when never set) and whether delete has
run (Effect.delete, outside this snapshot, modelled from the spec as removal
from the target effect list, tracked here as a flag). -/
structure EffectRec where
  days : Option Int
  deleted : Bool
  deriving DecidableEq, Repr

/-- evening_delete (lib/logic/charcreation.py lines 208 to 221): on the
evening cleanup call, delete when days == 1, otherwise decrement days; when the
days attribute was never set (AttributeError), delete immediately. -/
def evening_delete (e : EffectRec) : EffectRec :=
  match e.days with
  | some d => if d = 1 then { e with deleted := true }
              else { e with days := some (d - 1) }
  | none => { e with deleted := true }

/-- morning_delete (lib/logic/charcreation.py lines 223 to 235): identical
logic on the morning cleanup call. -/
def morning_delete (e : EffectRec) : EffectRec :=
  match e.days with
  | some d => if d = 1 then { e with deleted := true }
              else { e with days := some (d - 1) }
  | none => { e with deleted := true }

/-- A five-seat baseline game with no statuses set and one storyteller
(player 10), shared by the concrete scenarios below. -/
def baseState : GameState where
  seatingOrder := [0, 1, 2, 3, 4]
  storytellers := [10]
  traveler := fun _ => false
  storyteller := fun q => q == 10
  ghost := fun _ => false
  canVoteTwice := fun _ => false
  canNominate := fun _ => true
  canBeNominated := fun _ _ => true
  nominationsToday := fun _ => 0
  hasBeenNominated := fun _ => false
  effects := fun _ => []
  isPms := true
  isNoms := false
  pastVotes := []
  currentVote := none
  aboutToDie := none
  voteEndMessages := []
  exiled := []
  nextMsgId := 0
  sentMessages := []
  editedNegated := []

/-- Scenario game: five seated players, player 1 has can_vote_twice, player 2
is a traveler. -/
def gC1 : GameState :=
  { baseState with traveler := fun q => q == 2,
                   canVoteTwice := fun q => q == 1 }

/-- Scenario game: three seated players, player 1 has can_vote_twice. -/
def gC3 : GameState :=
  { baseState with seatingOrder := [0, 1, 2],
                   canVoteTwice := fun q => q == 1 }

/-- Scenario game: five seated players, player 2 a traveler, nobody with
can_vote_twice. -/
def gW1 : GameState :=
  { baseState with traveler := fun q => q == 2 }

/-- The vote Vote.init constructs in gW1 for nominee 2, nominator 3. -/
def vW1 : Vote where
  vid := 0
  nominee := 2
  nominator := 3
  traveler := true
  storyteller := false
  announcements := []
  prevotes := []
  position := 0
  votes := 0
  voted := []
  order := [3, 4, 0, 1, 2]
  majorityX2 := 5

/-- A finished non-traveler vote with tally 3 against a majority of 4. -/
def vC2 : Vote where
  vid := 1
  nominee := 2
  nominator := 3
  traveler := false
  storyteller := false
  announcements := []
  prevotes := []
  position := 5
  votes := 3
  voted := [0, 1, 4]
  order := [3, 4, 0, 1, 2]
  majorityX2 := 8

/-- Day state where vC2 is live and player 0 is about to die on tally 3,
announced in message 50. -/
def stC2 : GameState :=
  { baseState with currentVote := some vC2,
                   aboutToDie := some (0, 3, 50),
                   nextMsgId := 60 }

/-- A live vote on a traveler nominee (player 2) nominated by the storyteller
(player 10). -/
def vC4 : Vote where
  vid := 2
  nominee := 2
  nominator := 10
  traveler := true
  storyteller := false
  announcements := []
  prevotes := []
  position := 0
  votes := 0
  voted := []
  order := [3, 4, 0, 1, 2]
  majorityX2 := 5

/-- Day state where vC4 is live and the storyteller has one nomination used. -/
def stC4 : GameState :=
  { gW1 with currentVote := some vC4,
             nominationsToday := fun _ => 1 }

/-- A poisoned, otherwise alive player condition. -/
def pc5 : PlayerCond where
  functioning := false
  ghost := false
  drunk := false
  poisoned := true

/-- A dead player condition. -/
def pcDead : PlayerCond where
  functioning := false
  ghost := true
  drunk := false
  poisoned := false

/-- A marker ability: returns 1 when called enabled, 2 when called disabled,
never the neutral value 0. -/
def f5 : Bool → String → Nat := fun e _ => if e then 1 else 2

/-- A vetoing nomination hook with a visible side effect (bumps nextMsgId). -/
def chW : Nat → GameState → GameState × Bool :=
  fun _ s => ({ s with nextMsgId := s.nextMsgId + 1 }, false)

/-- An approving nomination hook with a visible side effect. -/
def chY : Nat → GameState → GameState × Bool :=
  fun _ s => ({ s with nextMsgId := s.nextMsgId + 1 }, true)

/-- No effect hooks. -/
def ehW : Nat → List (GameState → GameState × Bool) := fun _ => []

/-- The game state after addTargetedEffectAfter attaches a death effect from
player 0 to player 1 in baseState. -/
def stE8 : GameState :=
  { baseState with effects := fun q =>
                    if q = 1 then baseState.effects q ++ [(0, !true)]
                    else baseState.effects q }

/-- An effect with a two-day counter, not yet deleted. -/
def eD2 : EffectRec where
  days := some 2
  deleted := false

/-- A vote whose order contains player 1 twice (positions 0 and 3), currently
at position 2 (player 3 is to_vote). -/
def vC10 : Vote where
  vid := 9
  nominee := 2
  nominator := 3
  traveler := false
  storyteller := false
  announcements := []
  prevotes := []
  position := 2
  votes := 0
  voted := []
  order := [1, 2, 3, 1]
  majorityX2 := 4

theorem pyIndex_le (a : Nat) :
    ∀ (l : List Nat) (i : Nat), l[i]? = some a → pyIndex a l ≤ i
  | [], i, h => by simp at h
  | b :: t, 0, h => by
    simp at h
    simp [pyIndex, h]
  | b :: t, i + 1, h => by
    simp at h
    by_cases hb : b = a
    · simp [pyIndex, hb]
    · simp [pyIndex, hb]
      exact pyIndex_le a t i h

theorem pyInsert_getElem? (j i : Nat) (a : Nat) (l : List Nat) (hj : j ≤ i)
    (hi : i < l.length) : (pyInsert j a l)[i + 1]? = l[i]? := by
  unfold pyInsert
  have hjl : j ≤ l.length := le_trans hj (le_of_lt hi)
  have hlen : (l.take j).length = j := by
    simp [List.length_take, Nat.min_eq_left hjl]
  rw [List.getElem?_append_right (by omega)]
  rw [hlen]
  have hij : i + 1 - j = (i - j) + 1 := by omega
  rw [hij]
  simp [List.getElem?_drop]
  congr 1
  omega

theorem getElem?_lt_length {l : List Nat} {i : Nat} {a : Nat}
    (h : l[i]? = some a) : i < l.length := by
  by_contra hc
  rw [List.getElem?_eq_none (by omega)] at h
  cases h

/-- Key divergence fact about the duplication loop: once the index sits on an
element whose player has can_vote_twice, the inserted duplicate lands at or
before the index, the original occurrence shifts to the next index, and the
loop never reaches the end of the list, for any fuel. -/
theorem voteTwiceLoop_stuck (vt : Nat → Bool) :
    ∀ (fuel : Nat) (order : List Nat) (i p : Nat),
      order[i]? = some p → vt p = true → voteTwiceLoop vt fuel order i = none
  | 0, order, i, p, h, hvt => by
    unfold voteTwiceLoop
    rw [h]
  | fuel + 1, order, i, p, h, hvt => by
    have hmem : (pyInsert (pyIndex p order) p order)[i + 1]? = some p :=
      (pyInsert_getElem? (pyIndex p order) i p order
        (pyIndex_le p order i h) (getElem?_lt_length h)).trans h
    unfold voteTwiceLoop
    rw [h]
    show voteTwiceLoop vt fuel
      (if vt p = true then pyInsert (pyIndex p order) p order else order)
      (i + 1) = none
    rw [hvt]
    simp only [eq_self_iff_true, if_true]
    exact voteTwiceLoop_stuck vt fuel _ (i + 1) p hmem hvt

theorem voteOrder_length (g : GameState) (stb : Bool) (nominee : Nat) :
    (voteOrder g stb nominee).length = g.seatingOrder.length := by
  unfold voteOrder
  split
  · rfl
  · simp [List.length_drop, List.length_take]
    omega

theorem Vote.init_eq_none_iff (g : GameState) (vid nominee nominator fuel : Nat) :
    Vote.init g vid nominee nominator fuel = none ↔
      voteTwiceLoop g.canVoteTwice fuel
        (voteOrder g (g.storyteller nominee) nominee) 0 = none := by
  unfold Vote.init
  rcases hloop : voteTwiceLoop g.canVoteTwice fuel
      (voteOrder g (g.storyteller nominee) nominee) 0 with _ | fo <;>
    simp [hloop]

/-- C1 (amended): at Vote construction the majority is computed on the voting
order BEFORE any can_vote_twice duplicates are inserted, so it never counts a
votes-twice player double.  For a traveler vote, majority is half the length
of that pre-duplication order, which equals the seating-order length; for a
standard vote it is half the count of non-ghost entries of that order, raised
to about_to_die tally plus one when the day has an about_to_die entry, so a
later nomination must strictly beat the leading candidate.  (Doubled values
throughout: majorityX2 is twice the float majority.) -/
theorem vote_init_majority (g : GameState) (vid nominee nominator fuel : Nat)
    (v : Vote) (h : Vote.init g vid nominee nominator fuel = some v) :
    (g.traveler nominee = true → v.majorityX2 = (g.seatingOrder.length : Int)) ∧
    (g.traveler nominee = false →
      v.majorityX2 =
        voteMajorityX2 g false (voteOrder g (g.storyteller nominee) nominee)) ∧
    (∀ pl t m, g.aboutToDie = some (pl, t, m) → g.traveler nominee = false →
      v.majorityX2 ≥ 2 * (t + 1)) := by
  unfold Vote.init at h
  rcases hloop : voteTwiceLoop g.canVoteTwice fuel
      (voteOrder g (g.storyteller nominee) nominee) 0 with _ | finalOrder
  · rw [hloop] at h
    cases h
  · rw [hloop] at h
    have hmaj : v.majorityX2 =
        voteMajorityX2 g (g.traveler nominee)
          (voteOrder g (g.storyteller nominee) nominee) := by
      cases h
      rfl
    refine ⟨?_, ?_, ?_⟩
    · intro ht
      rw [hmaj, ht]
      unfold voteMajorityX2
      rw [if_pos rfl, voteOrder_length]
    · intro ht
      rw [hmaj, ht]
    · intro pl t m hatd ht
      rw [hmaj, ht]
      unfold voteMajorityX2
      rw [if_neg (by simp)]
      rw [hatd]
      exact le_max_right _ _

/-- C1 witness: in gW1 (five seats, nominee 2 a traveler, nobody voting
twice) construction succeeds and the majority is the seating length 5
(that is, 2.5 doubled). -/
theorem vote_init_majority_witness : vW1.majorityX2 = (gW1.seatingOrder.length : Int) :=
  (vote_init_majority gW1 0 2 3 10 vW1 (by decide)).1 rfl

/-- C1 counterexample: in gC1 (five seated players, player 1 votes twice,
nominee 2 a traveler) the claim says the order reaches length 6 and the
majority is 3 (majorityX2 = 6); the code computes the majority before the
duplication loop, giving 2.5 (majorityX2 = 5), and the duplication loop then
never terminates (none at fuel 40), so no order of length 6 ever exists. -/
theorem vote_init_majority_cex :
    gC1.traveler 2 = true ∧ gC1.canVoteTwice 1 = true ∧
    gC1.seatingOrder.length = 5 ∧
    voteMajorityX2 gC1 true (voteOrder gC1 false 2) = 5 ∧ (5 : Int) ≠ 6 ∧
    Vote.init gC1 0 2 3 40 = none := by
  refine ⟨rfl, rfl, rfl, by decide, by decide, by decide⟩

/-- C3 (code bug): Vote construction does not terminate when a player in the
order has can_vote_twice.  The source loop iterates by index over the list it
mutates; each insertion at the first index of the player shifts the original
occurrence to the next index, so it is reprocessed forever.  In gC3 (seats
0,1,2 with player 1 voting twice, nominee 2) the loop is still running at
every fuel bound. -/
theorem vote_init_diverges (fuel : Nat) : Vote.init gC3 0 2 3 fuel = none := by
  rw [Vote.init_eq_none_iff]
  cases fuel with
  | zero => decide
  | succ n =>
    have hstep : voteTwiceLoop gC3.canVoteTwice (n + 1)
        (voteOrder gC3 (gC3.storyteller 2) 2) 0 =
        voteTwiceLoop gC3.canVoteTwice n [0, 1, 2] 1 := rfl
    rw [hstep]
    exact voteTwiceLoop_stuck _ n [0, 1, 2] 1 1 (by decide) (by decide)

/-- C2: when a live non-traveler vote ends with an about_to_die entry present:
an exact tie with a failing result edits the old announcement and clears
about_to_die without installing a new entry; a true result edits the old
announcement and replaces about_to_die with (nominee, tally, new end message
id); a failing result with a differing tally leaves about_to_die and the old
announcement untouched.  (Resolution test doubled: result is
2 * votes >= majorityX2.) -/
theorem vote_end_about_to_die (st : GameState) (v : Vote) (pl : Nat) (t : Int)
    (m : Nat) (hlive : st.currentVote = some v) (htrav : v.traveler = false)
    (hatd : st.aboutToDie = some (pl, t, m)) :
    (v.votes = t → ¬(2 * v.votes ≥ v.majorityX2) →
      (Vote.endVote st v).aboutToDie = none ∧
      (Vote.endVote st v).editedNegated = st.editedNegated ++ [m]) ∧
    (2 * v.votes ≥ v.majorityX2 →
      (Vote.endVote st v).aboutToDie = some (v.nominee, v.votes, st.nextMsgId) ∧
      (Vote.endVote st v).editedNegated = st.editedNegated ++ [m]) ∧
    (v.votes ≠ t → ¬(2 * v.votes ≥ v.majorityX2) →
      (Vote.endVote st v).aboutToDie = st.aboutToDie ∧
      (Vote.endVote st v).editedNegated = st.editedNegated) := by
  refine ⟨?_, ?_, ?_⟩
  · intro heq hres
    have hres' : v.result = false := decide_eq_false hres
    have heq' : decide (v.votes = t) = true := decide_eq_true heq
    simp only [Vote.endVote, Vote.updateOldVoteEndMessage, sendMsg, hlive,
      htrav, hatd, hres', heq', if_pos, Bool.false_or, Bool.not_false,
      Bool.and_false, if_true, if_false, Bool.false_and]
    simp [heq]
  · intro hres
    have hres' : v.result = true := decide_eq_true hres
    simp only [Vote.endVote, Vote.updateOldVoteEndMessage, sendMsg, hlive,
      htrav, hatd, hres', if_pos, Bool.true_or, Bool.not_true,
      Bool.and_true, if_true, if_false]
    simp
  · intro hne hres
    have hres' : v.result = false := decide_eq_false hres
    have hne' : decide (v.votes = t) = false := decide_eq_false hne
    simp only [Vote.endVote, Vote.updateOldVoteEndMessage, sendMsg, hlive,
      htrav, hatd, hres', hne', if_pos, Bool.false_or, Bool.and_false,
      if_true, if_false]
    simp [hne, hatd]

/-- C2 witness: ending vC2 (tally 3, majority 4) in stC2 (about_to_die on
tally 3, message 50) clears about_to_die and edits message 50. -/
theorem vote_end_about_to_die_witness :
    (Vote.endVote stC2 vC2).aboutToDie = none ∧
    (Vote.endVote stC2 vC2).editedNegated = stC2.editedNegated ++ [50] :=
  (vote_end_about_to_die stC2 vC2 0 3 50 rfl rfl rfl).1 rfl (by decide)

/-- C6: end and cancel called on a vote that is not the current live vote
change nothing at all: the resulting state is the input state. -/
theorem end_cancel_nonlive_noop (st : GameState) (v : Vote)
    (h : st.currentVote ≠ some v) :
    Vote.endVote st v = st ∧ Vote.cancel st v = st := by
  constructor
  · unfold Vote.endVote
    exact if_neg h
  · unfold Vote.cancel
    exact if_neg h

/-- C6 witness: with no live vote, ending or cancelling vW1 leaves the state
unchanged. -/
theorem end_cancel_nonlive_noop_witness :
    Vote.endVote baseState vW1 = baseState ∧
    Vote.cancel baseState vW1 = baseState :=
  end_cancel_nonlive_noop baseState vW1 (by decide)

/-- C4 (amended): cancel on a live vote refunds the nominator exactly when
(not traveler or storyteller) holds of the VOTE flags, both of which describe
the nominee (Vote.storyteller is nominee.is_status storyteller); the refund is
skipped exactly when the nominee is a traveler and not a storyteller,
regardless of who the nominator is.  The nominee has_been_nominated flag is
always cleared. -/
theorem cancel_refund (st : GameState) (v : Vote)
    (hlive : st.currentVote = some v) :
    (Vote.cancel st v).nominationsToday v.nominator =
      (if !v.traveler || v.storyteller
       then st.nominationsToday v.nominator - 1
       else st.nominationsToday v.nominator) ∧
    (Vote.cancel st v).hasBeenNominated v.nominee = false := by
  constructor
  · simp only [Vote.cancel, sendMsg, hlive, if_pos]
    split <;> simp
  · simp only [Vote.cancel, sendMsg, hlive, if_pos]

/-- C4 witness: cancelling the live non-traveler vote vC2 refunds its
nominator and clears the nominee flag. -/
theorem cancel_refund_witness :
    (Vote.cancel stC2 vC2).nominationsToday vC2.nominator =
      (if !vC2.traveler || vC2.storyteller
       then stC2.nominationsToday vC2.nominator - 1
       else stC2.nominationsToday vC2.nominator) ∧
    (Vote.cancel stC2 vC2).hasBeenNominated vC2.nominee = false :=
  cancel_refund stC2 vC2 rfl

/-- C4 counterexample: vC4 is live, its nominee (2) is a traveler and not a
storyteller, and its nominator (10) IS a storyteller, so the claim says the
refund happens; the code checks the nominee storyteller flag, not the
nominator, and leaves nominations_today unchanged. -/
theorem cancel_refund_cex :
    stC4.currentVote = some vC4 ∧ vC4.traveler = true ∧
    vC4.storyteller = false ∧ stC4.storyteller vC4.nominator = true ∧
    (Vote.cancel stC4 vC4).nominationsToday vC4.nominator =
      stC4.nominationsToday vC4.nominator := by
  refine ⟨rfl, rfl, rfl, by decide, by decide⟩

/-- C5 (amended): the functioning gate calls through normally when the player
is functioning.  When not functioning, the whole diagnostic block sits inside
the safe_bug_report check: with bug reports on, a drunk (or poisoned,
non-ghost) player with run_if_impaired set still has the ability run with
enabled false and an annotated epithet; any other impairment (dead, or
run_if_impaired unset, or no specific status) skips the ability, emits the
skip diagnostic and returns the neutral result; with bug reports off, every
non-functioning case silently returns the neutral result with no diagnostic
and the ability never runs. -/
theorem if_functioning_gate {α : Type} (rif : Bool) (c : PlayerCond)
    (br : Bool) (func : Bool → String → α) (neutral : α) :
    (c.functioning = true →
      if_functioning rif c br func neutral = (func true "", [])) ∧
    (c.functioning = false → br = true → rif = true → c.ghost = false →
      c.drunk = true →
      if_functioning rif c br func neutral = (func false "(drunk)", [])) ∧
    (c.functioning = false → br = true → rif = true → c.ghost = false →
      c.drunk = false → c.poisoned = true →
      if_functioning rif c br func neutral = (func false "(poisoned)", [])) ∧
    (c.functioning = false → br = true →
      (rif = false ∨ c.ghost = true ∨ (c.drunk = false ∧ c.poisoned = false)) →
      if_functioning rif c br func neutral =
        (neutral, ["Skipping, as " ++ gateStatus c])) ∧
    (c.functioning = false → br = false →
      if_functioning rif c br func neutral = (neutral, [])) := by
  refine ⟨?_, ?_, ?_, ?_, ?_⟩
  · intro hf
    simp [if_functioning, hf]
  · intro hf hbr hrif hg hd
    simp [if_functioning, gateStatus, hf, hbr, hrif, hg, hd]
  · intro hf hbr hrif hg hd hp
    simp [if_functioning, gateStatus, hf, hbr, hrif, hg, hd, hp]
  · intro hf hbr hcase
    rcases hcase with hrif | hg | ⟨hd, hp⟩
    · simp [if_functioning, hf, hbr, hrif]
    · simp [if_functioning, gateStatus, hf, hbr, hg]
    · rcases hg : c.ghost with _ | _
      · simp [if_functioning, gateStatus, hf, hbr, hg, hd, hp]
      · simp [if_functioning, gateStatus, hf, hbr, hg]
  · intro hf hbr
    simp [if_functioning, hf, hbr]

/-- C5 witness: a poisoned player with run_if_impaired and bug reports on has
the marker ability run disabled; a dead player with run_if_impaired unset gets
the neutral result and the skip diagnostic. -/
theorem if_functioning_gate_witness :
    if_functioning true pc5 true f5 0 = (f5 false "(poisoned)", []) ∧
    if_functioning false pcDead true f5 0 =
      (0, ["Skipping, as " ++ gateStatus pcDead]) :=
  ⟨(if_functioning_gate true pc5 true f5 0).2.2.1 rfl rfl rfl rfl rfl rfl,
   (if_functioning_gate false pcDead true f5 0).2.2.2.1 rfl rfl (Or.inl rfl)⟩

/-- C5 counterexample: with bug reports off, a poisoned player with
run_if_impaired set does NOT have the ability run: the gate returns the
neutral 0 with no diagnostic, while the claim says the ability runs with
enabled false, which would return 2. -/
theorem if_functioning_gate_cex :
    if_functioning true pc5 false f5 0 = (0, []) ∧
    f5 false "(poisoned)" = 2 ∧ (2 : Nat) ≠ 0 :=
  ⟨rfl, rfl, by decide⟩

theorem runHooks_eq (hooks : List (GameState → GameState × Bool))
    (st : GameState) :
    runHooks hooks st = (runHooksStates hooks st, runHooksAll hooks st) := by
  suffices haux : ∀ (hs : List (GameState → GameState × Bool)) (s : GameState)
      (b : Bool),
      hs.foldl (fun acc h => ((h acc.1).1, (h acc.1).2 && acc.2)) (s, b) =
        (runHooksStates hs s, runHooksAll hs s && b) by
    have hb := haux hooks st true
    rw [Bool.and_true] at hb
    exact hb
  intro hs
  induction hs with
  | nil =>
    intro s b
    simp [runHooksStates, runHooksAll]
  | cons h t ih =>
    intro s b
    simp only [List.foldl_cons, runHooksStates, runHooksAll]
    rw [ih]
    simp only [runHooksStates, Prod.mk.injEq, true_and]
    rw [← Bool.and_assoc,
      Bool.and_comm (runHooksAll t (h s).1) ((h s).2), Bool.and_assoc]

theorem nominateAdjust_fields (st1 : GameState) (nominee nominator : Nat) :
    (nominateAdjust st1 nominee nominator).hasBeenNominated nominee = true ∧
    (nominateAdjust st1 nominee nominator).isPms = false ∧
    (nominateAdjust st1 nominee nominator).isNoms = false ∧
    (nominateAdjust st1 nominee nominator).nominationsToday nominator =
      (if !(st1.storyteller nominee || st1.traveler nominee)
       then st1.nominationsToday nominator + 1
       else st1.nominationsToday nominator) := by
  refine ⟨by simp [nominateAdjust], by simp [nominateAdjust],
    by simp [nominateAdjust], ?_⟩
  unfold nominateAdjust
  split <;> simp

theorem installVote_fields (s : GameState) (v : Vote) :
    (installVote s v).hasBeenNominated = s.hasBeenNominated ∧
    (installVote s v).isPms = s.isPms ∧ (installVote s v).isNoms = s.isNoms ∧
    (installVote s v).currentVote ≠ none ∧
    (installVote s v).nominationsToday = s.nominationsToday := by
  refine ⟨rfl, rfl, rfl, by simp [installVote, sendMsg], rfl⟩

theorem nominateProceed_fields (st1 : GameState)
    (nominee nominator vid fuel : Nat) :
    ∀ stR, nominateProceed st1 nominee nominator vid fuel = some (.ok stR) →
      stR.hasBeenNominated nominee = true ∧ stR.isPms = false ∧
      stR.isNoms = false ∧ stR.currentVote ≠ none ∧
      stR.nominationsToday nominator =
        (if !(st1.storyteller nominee || st1.traveler nominee)
         then st1.nominationsToday nominator + 1
         else st1.nominationsToday nominator) := by
  intro stR hR
  unfold nominateProceed at hR
  rcases hinit : Vote.init (nominateAdjust st1 nominee nominator)
      vid nominee nominator fuel with _ | v
  · rw [hinit] at hR
    cases hR
  · rw [hinit] at hR
    simp only [Option.some.injEq, Except.ok.injEq] at hR
    subst hR
    obtain ⟨ha1, ha2, ha3, ha4⟩ :=
      nominateAdjust_fields st1 nominee nominator
    obtain ⟨hi1, hi2, hi3, hi4, hi5⟩ :=
      installVote_fields (nominateAdjust st1 nominee nominator) v
    exact ⟨by rw [hi1, ha1], by rw [hi2, ha2], by rw [hi3, ha3], hi4,
      by rw [hi5, ha4]⟩

/-- C7: once the nominator and nominee validations pass, Day.nominate runs
every nomination hook (each seated player character hook then that player
effect hooks, in order) unconditionally: when any hook vetoed, the result is
exactly the state produced by running ALL hooks, so side effects of hooks
after the veto still apply, and nothing else happens; when every hook
approved, the nomination proceeds on top of that same all-hooks state: the
nominee is marked has_been_nominated, PMs and nominations are closed, a vote
is installed, and the allowance is consumed exactly unless the nominee is a
storyteller or traveler. -/
theorem nominate_hooks (ch : Nat → GameState → GameState × Bool)
    (eh : Nat → List (GameState → GameState × Bool)) (fuel : Nat)
    (st : GameState) (nominee nominator vid : Nat)
    (hv1 : (st.canNominate nominator || st.traveler nominee ||
            st.storyteller nominator) = true)
    (hv2 : (if st.storyteller nominee
            then st.storytellers.all (fun s => st.canBeNominated s nominator)
            else st.canBeNominated nominee nominator) = true) :
    (runHooksAll (nominationHookList ch eh st.seatingOrder) st = false →
      Day.nominate ch eh fuel st nominee nominator vid =
        some (.ok
          (runHooksStates (nominationHookList ch eh st.seatingOrder) st))) ∧
    (runHooksAll (nominationHookList ch eh st.seatingOrder) st = true →
      ∀ stR, Day.nominate ch eh fuel st nominee nominator vid =
          some (.ok stR) →
        stR.hasBeenNominated nominee = true ∧ stR.isPms = false ∧
        stR.isNoms = false ∧ stR.currentVote ≠ none ∧
        stR.nominationsToday nominator =
          (if !((runHooksStates (nominationHookList ch eh st.seatingOrder)
                  st).storyteller nominee ||
                (runHooksStates (nominationHookList ch eh st.seatingOrder)
                  st).traveler nominee)
           then (runHooksStates (nominationHookList ch eh st.seatingOrder)
                  st).nominationsToday nominator + 1
           else (runHooksStates (nominationHookList ch eh st.seatingOrder)
                  st).nominationsToday nominator)) := by
  constructor
  · intro hall
    simp [Day.nominate, hv1, hv2, runHooks_eq, hall]
  · intro hall stR hR
    have hnom : Day.nominate ch eh fuel st nominee nominator vid =
        nominateProceed
          (runHooksStates (nominationHookList ch eh st.seatingOrder) st)
          nominee nominator vid fuel := by
      simp [Day.nominate, hv1, hv2, runHooks_eq, hall]
    rw [hnom] at hR
    exact nominateProceed_fields _ nominee nominator vid fuel stR hR

/-- C7 witness: five vetoing hooks that each bump nextMsgId all run, and the
nomination stops with exactly their accumulated side effects applied. -/
theorem nominate_hooks_witness :
    Day.nominate chW ehW 10 baseState 2 3 0 =
      some (.ok (runHooksStates
        (nominationHookList chW ehW baseState.seatingOrder) baseState)) :=
  (nominate_hooks chW ehW 10 baseState 2 3 0 (by decide) (by decide)).1 rfl

/-- C8 (amended): the condition wrapper installed when allow_none is set
delegates to the original predicate on a non-null target and raises
InvalidMorningTargetError on a null target (null none-synonym answers are
accepted upstream by select_target without consulting the predicate); the
affected-player list returned by add_targeted_effect contains the resolved
target exactly when the effect type is death-causing, and is empty otherwise;
a null resolved target never reaches the return (AttributeError). -/
theorem condition_wrapper_and_dead_list
    (cond : Nat → GameState → Except TargetErr Bool) (p : Nat)
    (g st : GameState) (srcPl t : Nat) (en : Bool) :
    conditionWrapper cond (some p) g = cond p g ∧
    conditionWrapper cond none g =
      Except.error TargetErr.invalidMorningTarget ∧
    (∀ res, addTargetedEffectAfter st (some t) srcPl true en = some res →
      res.2.1 = [t]) ∧
    (∀ res, addTargetedEffectAfter st (some t) srcPl false en = some res →
      res.2.1 = []) ∧
    addTargetedEffectAfter st none srcPl true en = none := by
  refine ⟨rfl, rfl, ?_, ?_, rfl⟩
  · intro res hres
    simp only [addTargetedEffectAfter, if_true] at hres
    rw [← Option.some.injEq] at hres
    cases hres
    rfl
  · intro res hres
    simp only [addTargetedEffectAfter, if_false] at hres
    cases hres
    rfl

/-- C8 witness: attaching a death effect from player 0 to resolved target 1
returns the affected list containing exactly player 1. -/
theorem condition_wrapper_and_dead_list_witness :
    (stE8, [1], ([] : List String)).2.1 = [1] :=
  (condition_wrapper_and_dead_list (fun _ _ => .ok true) 1 baseState baseState
    0 1 true).2.2.1 (stE8, [1], []) rfl

/-- C8 counterexample: the wrapper does NOT accept a null target: even with an
always-true predicate it raises InvalidMorningTargetError on none, while the
claim says a null target is accepted. -/
theorem condition_wrapper_cex :
    conditionWrapper (fun _ _ => .ok true) none baseState =
      Except.error TargetErr.invalidMorningTarget ∧
    Except.error TargetErr.invalidMorningTarget ≠
      (Except.ok true : Except TargetErr Bool) :=
  ⟨rfl, fun h => Except.noConfusion h⟩

theorem iterate_evening_delete :
    ∀ (j : Nat) (n : Int) (e : EffectRec), e.days = some n →
      e.deleted = false → 1 ≤ n →
      ((j : Int) < n →
        (iterate evening_delete j e).days = some (n - j) ∧
        (iterate evening_delete j e).deleted = false) ∧
      ((j : Int) = n → (iterate evening_delete j e).deleted = true)
  | 0, n, e, hd, hdel, hn => by
    constructor
    · intro _
      simp only [iterate]
      rw [hd, hdel]
      norm_num
    · intro h0
      exfalso
      omega
  | j + 1, n, e, hd, hdel, hn => by
    have hstep : iterate evening_delete (j + 1) e =
        iterate evening_delete j (evening_delete e) := rfl
    by_cases hn1 : n = 1
    · subst hn1
      have hdead : (evening_delete e).deleted = true := by
        simp [evening_delete, hd]
      constructor
      · intro hlt
        exfalso
        push_cast at hlt
        omega
      · intro _
        have hj0 : j = 0 := by
          push_cast at *
          omega
        subst hj0
        rw [hstep]
        simpa [iterate] using hdead
    · have he1 : (evening_delete e).days = some (n - 1) := by
        simp [evening_delete, hd, hn1]
      have he2 : (evening_delete e).deleted = false := by
        simp [evening_delete, hd, hn1, hdel]
      have ih := iterate_evening_delete j (n - 1) (evening_delete e) he1 he2
        (by omega)
      constructor
      · intro hlt
        have h1 := ih.1 (by push_cast at hlt ⊢; omega)
        rw [hstep]
        refine ⟨?_, h1.2⟩
        rw [h1.1]
        congr 1
        push_cast
        omega
      · intro heq
        rw [hstep]
        exact ih.2 (by push_cast at heq ⊢; omega)

/-- C9: a scheduled-deletion effect with no day counter deletes on the very
first designated cleanup call (evening and morning cleanups have identical
logic); with counter n at least 1, each of the first n - 1 designated cleanup
calls decrements the counter by one and leaves the effect alive, and the n-th
call deletes it. -/
theorem cleanup_delete_schedule (e : EffectRec) (n : Int) (k : Nat) :
    morning_delete = evening_delete ∧
    (e.days = none → (evening_delete e).deleted = true ∧
      (morning_delete e).deleted = true) ∧
    (e.days = some n → e.deleted = false → 1 ≤ n →
      ((k : Int) < n →
        (iterate evening_delete k e).days = some (n - k) ∧
        (iterate evening_delete k e).deleted = false) ∧
      ((k : Int) = n → (iterate evening_delete k e).deleted = true)) := by
  refine ⟨rfl, ?_, ?_⟩
  · intro hd
    constructor <;> simp [evening_delete, morning_delete, hd]
  · intro hd hdel hn
    exact iterate_evening_delete k n e hd hdel hn

/-- C9 witness: a counter-2 effect survives the first cleanup with counter 1
and is deleted by the second (Scenario D). -/
theorem cleanup_delete_schedule_witness :
    ((iterate evening_delete 1 eD2).days = some (2 - ((1 : Nat) : Int)) ∧
      (iterate evening_delete 1 eD2).deleted = false) ∧
    (iterate evening_delete 2 eD2).deleted = true :=
  ⟨((cleanup_delete_schedule eD2 2 1).2.2 rfl rfl (by decide)).1 (by decide),
   ((cleanup_delete_schedule eD2 2 2).2.2 rfl rfl (by decide)).2 (by decide)⟩

/-- C10: Vote.prevote silently assumes the voter occurs in the order: while
the vote is still running (position in range), a prevote from any player
absent from the order, who then cannot be the currently called voter, hits
the uncaught ValueError from order.index instead of a recoverable validation
reply; and the already-voted check compares the EARLIEST index of the voter
against position, so a votes-twice voter whose first slot has passed is
rejected even though a later slot of theirs is still coming. -/
theorem prevote_requires_membership (v : Vote) (voter vt j : Nat)
    (hpos : v.position < v.order.length) :
    (voter ∉ v.order → Vote.prevote v voter vt = PrevoteOutcome.valueError) ∧
    (v.order[j]? = some voter → v.position ≤ j →
      pyIndex voter v.order < v.position →
      v.order[v.position]? ≠ some voter →
      Vote.prevote v voter vt = PrevoteOutcome.alreadyVoted) := by
  have htv : v.order[v.position]? = some v.order[v.position] :=
    List.getElem?_eq_getElem hpos
  constructor
  · intro hmem
    have hne : ¬ voter = v.order[v.position] := by
      intro he
      exact hmem (by rw [he]; exact List.getElem_mem hpos)
    simp [Vote.prevote, htv, hne, hmem]
  · intro hj hple hidx hne
    have hmem : voter ∈ v.order := by
      rw [List.getElem?_eq_some] at hj
      obtain ⟨hlt, he⟩ := hj
      exact he ▸ List.getElem_mem hlt
    have hnetv : ¬ voter = v.order[v.position] := by
      intro he
      exact hne (by rw [htv, ← he])
    simp [Vote.prevote, htv, hnetv, hmem, hidx]

/-- C10 witness: in vC10 (order 1,2,3,1 at position 2) a prevote from player
9, absent from the order, raises ValueError; a prevote from player 1, whose
first slot passed but whose second slot (index 3) is still coming, is
rejected as already voted. -/
theorem prevote_requires_membership_witness :
    Vote.prevote vC10 9 1 = PrevoteOutcome.valueError ∧
    Vote.prevote vC10 1 1 = PrevoteOutcome.alreadyVoted :=
  ⟨(prevote_requires_membership vC10 9 1 0 (by decide)).1 (by decide),
   (prevote_requires_membership vC10 1 1 3 (by decide)).2 (by decide)
     (by decide) (by decide) (by decide)⟩
